import Mathlib

/-!
Shallow embedding of `src/handler.py` (RunPod serverless handler for the
Wan 2.2 video-generation models).  External effects (filesystem, the
generation subprocess, base64 decoding, model downloads) are abstracted
into an explicit `Env` oracle; the handler's control flow, command
construction, result shapes and temp-file lifecycle are translated
faithfully from the source.  A `Trace` records which temp files are still
live when the handler returns and the exact subprocess command issued (if
the invocation step was reached), so that effect claims can be stated.
-/

namespace Wan22

/-- Result of `subprocess.run(cmd, capture_output=True, text=True)`. -/
structure SubprocResult where
  returncode : Int
  stdout : String
  stderr : String
deriving DecidableEq, Repr

/-- A `.mp4` file in the output directory, with its `st_mtime`. -/
structure VideoFile where
  name : String
  mtime : Nat
deriving DecidableEq, Repr

/-- One entry of `MODEL_CONFIGS` in `handler.py`. -/
structure ModelConfig where
  path : String
  default_size : String
  alt_size : String
  supports_t2v : Bool
  supports_i2v : Bool
  vram : String
  command : String
deriving DecidableEq, Repr

/-- `MODEL_CONFIGS["ti2v-5B"]`. -/
def cfgTI2V : ModelConfig :=
  { path := "/workspace/Wan2.2-TI2V-5B"
    default_size := "1280*704"
    alt_size := "704*1280"
    supports_t2v := true
    supports_i2v := true
    vram := "24GB"
    command := "python /workspace/Wan2.2/generate.py" }

/-- `MODEL_CONFIGS["t2v-A14B"]`. -/
def cfgT2V : ModelConfig :=
  { path := "/workspace/Wan2.2-T2V-A14B"
    default_size := "1280*720"
    alt_size := "854*480"
    supports_t2v := true
    supports_i2v := false
    vram := "80GB"
    command := "python /workspace/Wan2.2/generate.py" }

/-- `MODEL_CONFIGS["i2v-A14B"]`. -/
def cfgI2V : ModelConfig :=
  { path := "/workspace/Wan2.2-I2V-A14B"
    default_size := "1280*720"
    alt_size := "854*480"
    supports_t2v := false
    supports_i2v := true
    vram := "80GB"
    command := "python /workspace/Wan2.2/generate.py" }

/-- Dictionary lookup `MODEL_CONFIGS.get(name)` / `name in MODEL_CONFIGS`. -/
def findConfig (name : String) : Option ModelConfig :=
  if name == "ti2v-5B" then some cfgTI2V
  else if name == "t2v-A14B" then some cfgT2V
  else if name == "i2v-A14B" then some cfgI2V
  else none

/-- Python exceptions that can travel through the handler. -/
inductive PyErr where
  | keyError (k : String)
  | valueError (m : String)
  | exn (m : String)
  | calledProcessError (m : String)
deriving DecidableEq, Repr

/-- `str(e)` for the exceptions above. -/
def PyErr.toMessage : PyErr → String
  | .keyError k => "'" ++ k ++ "'"
  | .valueError m => m
  | .exn m => m
  | .calledProcessError m => m

/-- Oracle for everything outside the handler process: filesystem state,
subprocess outcomes, base64 decodability, the name `tempfile` hands out,
and the bytes (already base64-encoded) read back from a file. -/
structure Env where
  wanPathExists : Bool
  cloneOk : Bool
  pipOk : Bool
  generateScriptExists : Bool
  modelPathExists : String → Bool
  hfDownloadOk : String → Bool
  b64DecodeOk : String → Bool
  tempImageName : String
  run : List String → SubprocResult
  outputFiles : List VideoFile
  fileB64 : String → String

/-- The `input` sub-object of a job: the fields `generate_video` reads,
plus `image_url`, which the spec lists as an accepted input field. -/
structure JobInput where
  model : Option String := none
  prompt : Option String := none
  image_base64 : Option String := none
  image_url : Option String := none
  size : Option String := none
  seed : Option Int := none
deriving DecidableEq, Repr

/-- A job object as handed to the handler; `job["input"]` raises `KeyError`
when the key is absent, modelled by `none`. -/
structure Job where
  input : Option JobInput
deriving DecidableEq, Repr

/-- The `info` sub-dictionary of a success result. -/
structure Info where
  model : String
  mode : String
  size : String
  prompt : Option String
  fps : Nat
deriving DecidableEq, Repr

/-- The dictionary returned by `generate_video`: a success result populates
`video` and `info`, an error result populates `error` and `traceback`. -/
structure JobResult where
  status : String
  video : Option String := none
  info : Option Info := none
  error : Option String := none
  traceback : Option String := none
deriving DecidableEq, Repr

/-- Effect trace of one handler invocation: `genCmd` is the argv passed to
`subprocess.run` inside `run_wan_generate` (`none` when that step was never
reached), `liveFiles` the job-scoped files created and not yet deleted. -/
structure Trace where
  genCmd : Option (List String) := none
  liveFiles : List String := []
deriving DecidableEq, Repr

/-- Python truthiness of an optional string (`bool(x)`): `None` and `""`
are falsy. -/
def truthyS : Option String → Bool
  | none => false
  | some s => s != ""

/-- Python truthiness of an optional integer: `None` and `0` are falsy. -/
def truthyI : Option Int → Bool
  | none => false
  | some n => n != 0

/-- `check_wan_installation`: clone + pip install when the checkout is
missing (each `subprocess.run(..., check=True)` may raise), then report
whether `generate.py` exists. -/
def check_wan_installation (env : Env) : Except PyErr Bool :=
  if env.wanPathExists then .ok env.generateScriptExists
  else if !env.cloneOk then .error (.calledProcessError "git clone failed")
  else if !env.pipOk then .error (.calledProcessError "pip install failed")
  else .ok env.generateScriptExists

/-- `download_model_if_needed`: unknown model raises `ValueError`; a model
already on disk is kept; otherwise `huggingface-cli download` runs with
`check=True` and may raise. -/
def download_model_if_needed (env : Env) (model_name : String) : Except PyErr Unit :=
  match findConfig model_name with
  | none => .error (.valueError ("Unknown model: " ++ model_name))
  | some config =>
    if env.modelPathExists config.path then .ok ()
    else if env.hfDownloadOk model_name then .ok ()
    else .error (.calledProcessError "huggingface-cli download failed")

/-- `save_temp_image`: strip an optional `data:...;base64,` prefix, decode,
write to a fresh temp file and return its name.  `b64decode` may raise
before any file is created. -/
def save_temp_image (env : Env) (image_base64 : String) : Except PyErr String :=
  let pieces := image_base64.splitOn "base64,"
  let data := if pieces.length ≥ 2 then pieces.getD 1 "" else image_base64
  if env.b64DecodeOk data then .ok env.tempImageName
  else .error (.exn "Invalid base64-encoded string")

/-- The `params` dictionary built by `generate_video` and consumed by
`run_wan_generate`. -/
structure Params where
  size : String
  prompt : Option String := none
  seed : Option Int := none
  image_path : Option String := none
deriving DecidableEq, Repr

/-- The argv list built at the top of `run_wan_generate`: fixed interpreter
and script, `--task`, `--size`, `--ckpt_dir`, `--offload_model True`,
`--convert_model_dtype`, then `--t5_cpu` for `ti2v-5B` only, then
`--prompt` / `--image` / `--seed` guarded by Python truthiness of the
corresponding `params` entries. -/
def buildCmd (model_name : String) (config : ModelConfig) (params : Params) : List String :=
  let cmd := ["python3", "/workspace/Wan2.2/generate.py",
    "--task", model_name,
    "--size", params.size,
    "--ckpt_dir", config.path,
    "--offload_model", "True",
    "--convert_model_dtype"]
  let cmd := if model_name == "ti2v-5B" then cmd ++ ["--t5_cpu"] else cmd
  let cmd := match params.prompt with
    | some p => if p != "" then cmd ++ ["--prompt", p] else cmd
    | none => cmd
  let cmd := match params.image_path with
    | some ip => if ip != "" then cmd ++ ["--image", ip] else cmd
    | none => cmd
  match params.seed with
  | some s => if s != 0 then cmd ++ ["--seed", toString s] else cmd
  | none => cmd

/-- Stable insertion into a list sorted by decreasing `mtime`; mirrors the
ordering produced by `sorted(..., key=mtime, reverse=True)`. -/
def insertDesc (x : VideoFile) : List VideoFile → List VideoFile
  | [] => [x]
  | y :: ys => if y.mtime ≤ x.mtime then x :: y :: ys else y :: insertDesc x ys

/-- `sorted(video_files, key=lambda x: x.stat().st_mtime, reverse=True)`. -/
def sortByMtimeDesc : List VideoFile → List VideoFile
  | [] => []
  | x :: xs => insertDesc x (sortByMtimeDesc xs)

/-- `run_wan_generate`: build argv, run the external process, raise on a
non-zero exit with the captured stderr in the message, then pick the most
recently modified `.mp4` in the output directory (raising when there is
none).  The second component reports the argv that reached
`subprocess.run`, for stating invocation claims. -/
def run_wan_generate (env : Env) (model_name : String) (params : Params) :
    Except PyErr String × Option (List String) :=
  match findConfig model_name with
  | none => (.error (.keyError model_name), none)
  | some config =>
    let cmd := buildCmd model_name config params
    let res := env.run cmd
    if res.returncode != 0 then
      (.error (.exn ("Generation failed: " ++ res.stderr)), some cmd)
    else
      match (sortByMtimeDesc env.outputFiles).head? with
      | none => (.error (.exn "No output video found"), some cmd)
      | some f => (.ok f.name, some cmd)

/-- The error-shaped result built in the `except` block of
`generate_video`. -/
def errResult (e : PyErr) : JobResult :=
  { status := "error"
    error := some e.toMessage
    traceback := some ("Traceback (most recent call last):\n" ++ e.toMessage) }

/-- The tail of the `try` block of `generate_video`, from the
`run_wan_generate` call onwards: invoke generation, read and base64-encode
the produced video, delete the job's temp files (success path only — the
`except` clause performs no cleanup), and assemble the success result. -/
def finishJob (env : Env) (model_name : String) (is_t2v : Bool)
    (params : Params) (t1 : Trace) : JobResult × Trace :=
  match run_wan_generate env model_name params with
  | (.error e, c) => (errResult e, { t1 with genCmd := c })
  | (.ok output_video_path, c) =>
    let t2 : Trace :=
      { genCmd := c, liveFiles := t1.liveFiles ++ [output_video_path] }
    let video_base64 := env.fileB64 output_video_path
    let t3 : Trace :=
      { t2 with liveFiles :=
          if truthyS params.image_path then
            t2.liveFiles.erase (params.image_path.getD "")
          else t2.liveFiles }
    let t4 : Trace := { t3 with liveFiles := t3.liveFiles.erase output_video_path }
    ({ status := "success"
       video := some ("data:video/mp4;base64," ++ video_base64)
       info := some
         { model := model_name
           mode := if is_t2v then "t2v" else "i2v"
           size := params.size
           prompt := params.prompt
           fps := 24 } }, t4)

/-- Lines 220-223 of `generate_video` and the call into `finishJob`: the
prompt log line evaluates `params.get("prompt", "None")[:50]`, and since
the `prompt` key is always present in `params`, an absent or empty prompt
stores `None` there and the slice raises
`TypeError: 'NoneType' object is not subscriptable` — after the temp
image was saved but before the generation subprocess runs. -/
def logAndRun (env : Env) (model_name : String) (is_t2v : Bool)
    (params : Params) (t1 : Trace) : JobResult × Trace :=
  match params.prompt with
  | none => (errResult (.exn "'NoneType' object is not subscriptable"), t1)
  | some _ => finishJob env model_name is_t2v params t1

/-- The body of the `try` block of `generate_video`, with the `except`
clause folded in: always returns a result dictionary, together with the
effect trace of the invocation. -/
def pipeline (env : Env) (job_input : JobInput) : JobResult × Trace :=
  let t0 : Trace := {}
  match check_wan_installation env with
  | .error e => (errResult e, t0)
  | .ok installed =>
    if !installed then (errResult (.exn "Wan 2.2 installation failed"), t0)
    else
      let model_name := job_input.model.getD "ti2v-5B"
      let prompt := job_input.prompt.getD ""
      let image_base64 := job_input.image_base64
      match findConfig model_name with
      | none =>
        (errResult (.valueError ("Unknown model: " ++ model_name ++
          ". Available: ['ti2v-5B', 't2v-A14B', 'i2v-A14B']")), t0)
      | some config =>
        match download_model_if_needed env model_name with
        | .error e => (errResult e, t0)
        | .ok _ =>
          let has_image := truthyS image_base64
          let is_t2v := !has_image
          let is_i2v := has_image
          if is_t2v && !config.supports_t2v then
            (errResult (.valueError (model_name ++ " does not support text-to-video")), t0)
          else if is_i2v && !config.supports_i2v then
            (errResult (.valueError (model_name ++ " does not support image-to-video")), t0)
          else
            let params0 : Params :=
              { size := job_input.size.getD config.default_size
                prompt := if prompt != "" then some prompt else none
                seed := job_input.seed }
            if truthyS image_base64 then
              match save_temp_image env (image_base64.getD "") with
              | .error e => (errResult e, t0)
              | .ok p =>
                logAndRun env model_name is_t2v
                  { params0 with image_path := some p }
                  { t0 with liveFiles := t0.liveFiles ++ [p] }
            else
              logAndRun env model_name is_t2v params0 t0

/-- `generate_video`: `job["input"]` is evaluated before the `try` block,
so a missing `input` key propagates a `KeyError` to the caller
(`Except.error`); everything else produces a result dictionary. -/
def generate_video (env : Env) (job : Job) : Except PyErr (JobResult × Trace) :=
  match job.input with
  | none => .error (.keyError "input")
  | some job_input => .ok (pipeline env job_input)

end Wan22

namespace Wan22

/-- An environment in which every external step succeeds: Wan 2.2 and all
model weights are on disk, the generation process exits 0, and the output
directory holds two videos, `b.mp4` being the newer. -/
def envOK : Env :=
  { wanPathExists := true
    cloneOk := true
    pipOk := true
    generateScriptExists := true
    modelPathExists := fun _ => true
    hfDownloadOk := fun _ => true
    b64DecodeOk := fun _ => true
    tempImageName := "/tmp/tmp1234.jpg"
    run := fun _ => { returncode := 0, stdout := "ok", stderr := "" }
    outputFiles := [{ name := "/workspace/Wan2.2/outputs/a.mp4", mtime := 10 },
                    { name := "/workspace/Wan2.2/outputs/b.mp4", mtime := 20 }]
    fileB64 := fun _ => "AAAA" }

/-- Like `envOK` but the generation process exits 1 with stderr
`"CUDA out of memory"`. -/
def envFailRun : Env :=
  { envOK with run := fun _ => { returncode := 1, stdout := "", stderr := "CUDA out of memory" } }

/-- A text-only job with a prompt (an empty input object would hit the
line-223 `TypeError` instead). -/
def jobOK : Job := { input := some { prompt := some "hi" } }

example :
    generate_video envOK jobOK = .ok
      ({ status := "success"
         video := some "data:video/mp4;base64,AAAA"
         info := some { model := "ti2v-5B", mode := "t2v", size := "1280*704",
                        prompt := some "hi", fps := 24 } },
       { genCmd := some ["python3", "/workspace/Wan2.2/generate.py",
           "--task", "ti2v-5B", "--size", "1280*704",
           "--ckpt_dir", "/workspace/Wan2.2-TI2V-5B",
           "--offload_model", "True", "--convert_model_dtype", "--t5_cpu",
           "--prompt", "hi"]
         liveFiles := [] }) := rfl

example :
    generate_video envOK { input := some {} } = .ok
      (errResult (.exn "'NoneType' object is not subscriptable"),
       { genCmd := none, liveFiles := [] }) := rfl

end Wan22

namespace Wan22

/-- Every result produced by the generation tail is either success-shaped
(video populated, no error) or error-shaped (error populated, no video). -/
theorem finishJob_result_shape (env : Env) (m : String) (b : Bool) (p : Params) (t1 : Trace) :
    (((finishJob env m b p t1).1.video.isSome ∧ (finishJob env m b p t1).1.error = none)
      ∨ ((finishJob env m b p t1).1.error.isSome ∧ (finishJob env m b p t1).1.video = none)) := by
  unfold finishJob
  repeat' split
  all_goals simp [errResult]

/-- Every result produced by the log-then-run step is either
success-shaped or error-shaped. -/
theorem logAndRun_result_shape (env : Env) (m : String) (b : Bool) (p : Params) (t1 : Trace) :
    (((logAndRun env m b p t1).1.video.isSome ∧ (logAndRun env m b p t1).1.error = none)
      ∨ ((logAndRun env m b p t1).1.error.isSome ∧ (logAndRun env m b p t1).1.video = none)) := by
  unfold logAndRun
  split
  · simp [errResult]
  · exact finishJob_result_shape _ _ _ _ _

/-- Every result produced by the pipeline body is either success-shaped
(video populated, no error) or error-shaped (error populated, no video). -/
theorem pipeline_result_shape (env : Env) (ji : JobInput) :
    (((pipeline env ji).1.video.isSome ∧ (pipeline env ji).1.error = none)
      ∨ ((pipeline env ji).1.error.isSome ∧ (pipeline env ji).1.video = none)) := by
  unfold pipeline
  dsimp only
  repeat' split
  all_goals first
    | exact logAndRun_result_shape _ _ _ _ _
    | simp [errResult]

end Wan22

namespace Wan22

/-- The result `generate_video envOK jobOK` evaluates to. -/
def resOK : JobResult :=
  { status := "success"
    video := some "data:video/mp4;base64,AAAA"
    info := some { model := "ti2v-5B", mode := "t2v", size := "1280*704",
                   prompt := some "hi", fps := 24 } }

/-- The trace `generate_video envOK jobOK` evaluates to. -/
def trOK : Trace :=
  { genCmd := some ["python3", "/workspace/Wan2.2/generate.py",
      "--task", "ti2v-5B", "--size", "1280*704",
      "--ckpt_dir", "/workspace/Wan2.2-TI2V-5B",
      "--offload_model", "True", "--convert_model_dtype", "--t5_cpu",
      "--prompt", "hi"]
    liveFiles := [] }

/-- C1: every result object returned by `generate_video` populates exactly
one of the `video` and `error` fields — a success result has a video
data-URI and no error, an error result has an error message and no
video. -/
theorem result_exactly_one_of_video_error (env : Env) (job : Job)
    (r : JobResult) (t : Trace) (h : generate_video env job = .ok (r, t)) :
    (r.video.isSome ∧ r.error = none) ∨ (r.error.isSome ∧ r.video = none) := by
  cases job with
  | mk input =>
    cases input with
    | none => simp [generate_video] at h
    | some ji =>
      have hp : pipeline env ji = (r, t) := by
        simpa [generate_video] using h
      have hs := pipeline_result_shape env ji
      rw [hp] at hs
      exact hs

/-- Witness for C1 at a concrete all-successful environment and job. -/
theorem result_exactly_one_of_video_error_witness :
    generate_video envOK jobOK = .ok (resOK, trOK) ∧
      ((resOK.video.isSome ∧ resOK.error = none)
        ∨ (resOK.error.isSome ∧ resOK.video = none)) :=
  ⟨rfl, result_exactly_one_of_video_error envOK jobOK resOK trOK rfl⟩

/-- C3 counterexample: a job object without an `input` key makes
`generate_video` raise `KeyError` before the `try` block is entered, so an
exception does propagate to the serverless host. -/
theorem missing_input_key_propagates :
    generate_video envOK { input := none } = .error (.keyError "input") := rfl

/-- C3 (amended): for every job object that does contain an `input` field,
any exception raised in the pipeline is caught and converted into an
error-shaped result, and `generate_video` returns normally. -/
theorem no_exception_with_input_key (env : Env) (ji : JobInput) :
    ∃ r t, generate_video env { input := some ji } = .ok (r, t) :=
  ⟨(pipeline env ji).1, (pipeline env ji).2, rfl⟩

end Wan22

namespace Wan22

/-- The spec's reading of the CLI contract, amended for Python truthiness:
the fixed head, then each optional flag segment present exactly when the
corresponding parameter is truthy (a seed of `0`, an empty prompt and an
empty image path count as absent). -/
def cmdSpec (model_name : String) (config : ModelConfig) (params : Params) : List String :=
  ["python3", "/workspace/Wan2.2/generate.py",
   "--task", model_name,
   "--size", params.size,
   "--ckpt_dir", config.path,
   "--offload_model", "True",
   "--convert_model_dtype"]
  ++ (if model_name == "ti2v-5B" then ["--t5_cpu"] else [])
  ++ (if truthyS params.prompt then ["--prompt", params.prompt.getD ""] else [])
  ++ (if truthyS params.image_path then ["--image", params.image_path.getD ""] else [])
  ++ (if truthyI params.seed then ["--seed", toString (params.seed.getD 0)] else [])

/-- C4 (amended): `run_wan_generate` builds the argv as the fixed head
(`python3 generate.py --task … --size … --ckpt_dir … --offload_model True
--convert_model_dtype`), then `--t5_cpu` exactly for `ti2v-5B`, then
`--prompt`, `--image` and `--seed` each present exactly when the
corresponding parameter is Python-truthy (so an explicit seed of `0`, an
empty prompt or an empty image path is treated as absent). -/
theorem buildCmd_eq_cmdSpec (m : String) (c : ModelConfig) (p : Params) :
    buildCmd m c p = cmdSpec m c p := by
  obtain ⟨size, prompt, seed, ipath⟩ := p
  cases prompt <;> cases ipath <;> cases seed <;>
    simp [buildCmd, cmdSpec, truthyS, truthyI] <;>
    (repeat' split) <;> rfl

/-- C4 counterexample: a parameter set with the seed present but equal to
`0` produces a command with no `--seed` flag, refuting the claim that the
flag is added whenever a seed is present. -/
theorem seed_zero_omits_seed_flag :
    (Params.seed { size := "1280*720", seed := some 0 }).isSome = true
    ∧ "--seed" ∉ buildCmd "t2v-A14B" cfgT2V { size := "1280*720", seed := some 0 } := by
  exact ⟨rfl, by decide⟩

/-- The argv reported by `run_wan_generate` is the one `buildCmd` produces
for the looked-up model configuration. -/
theorem run_wan_generate_snd (env : Env) (m : String) (p : Params) :
    (run_wan_generate env m p).2 = (findConfig m).map (fun c => buildCmd m c p) := by
  unfold run_wan_generate
  cases findConfig m <;> dsimp only <;> (repeat' split) <;> rfl

end Wan22

namespace Wan22

/-- C5: when the external generation process exits with a non-zero status,
the job's result is an error result whose message contains the captured
stderr content. -/
theorem stderr_in_error_message (env : Env) (ji : JobInput)
    (rc : Int) (out err pr : String)
    (hmodel : ji.model = none) (himg : ji.image_base64 = none)
    (hprompt : ji.prompt = some pr) (hprne : pr ≠ "")
    (hwan : env.wanPathExists = true) (hscript : env.generateScriptExists = true)
    (hpath : env.modelPathExists cfgTI2V.path = true)
    (hrun : env.run = fun _ => { returncode := rc, stdout := out, stderr := err })
    (hrc : rc ≠ 0) :
    ∃ r t, generate_video env { input := some ji } = .ok (r, t) ∧
      r.status = "error" ∧ ∃ a b, r.error = some (a ++ err ++ b) := by
  refine ⟨(pipeline env ji).1, (pipeline env ji).2, rfl, ?_⟩
  simp only [cfgTI2V] at hpath
  have hres : (pipeline env ji).1 = errResult (.exn ("Generation failed: " ++ err)) := by
    simp [pipeline, logAndRun, finishJob, check_wan_installation, download_model_if_needed,
      findConfig, run_wan_generate, save_temp_image, truthyS, cfgTI2V,
      hmodel, himg, hprompt, hprne, hwan, hscript, hpath, hrun, hrc]
  rw [hres]
  refine ⟨rfl, "Generation failed: ", "", ?_⟩
  simp [errResult, PyErr.toMessage]

/-- Witness for C5: with every subprocess exiting 1 with stderr
`"CUDA out of memory"`, a prompted text-only job yields an error result
containing that stderr. -/
theorem stderr_in_error_message_witness :
    ∃ r t, generate_video envFailRun { input := some { prompt := some "hi" } } = .ok (r, t) ∧
      r.status = "error" ∧ ∃ a b, r.error = some (a ++ "CUDA out of memory" ++ b) :=
  stderr_in_error_message envFailRun { prompt := some "hi" } 1 "" "CUDA out of memory" "hi"
    rfl rfl rfl (by decide) rfl rfl rfl rfl (by decide)

/-- C6: a job supplying an image to `t2v-A14B` (whose descriptor has
`supports_i2v = false`), and symmetrically a text-only job for `i2v-A14B`
(whose descriptor has `supports_t2v = false`), is rejected with a
validation error and the generation subprocess is never invoked
(`genCmd = none`). -/
theorem capability_validation_blocks_invocation (env : Env) (ji : JobInput) (m : String)
    (hwan : env.wanPathExists = true) (hscript : env.generateScriptExists = true)
    (hdl : ∀ p, env.modelPathExists p = true)
    (hmodel : ji.model = some m)
    (hcase : (m = "t2v-A14B" ∧ truthyS ji.image_base64 = true)
           ∨ (m = "i2v-A14B" ∧ truthyS ji.image_base64 = false)) :
    ∃ r t, generate_video env { input := some ji } = .ok (r, t) ∧
      r.status = "error" ∧ t.genCmd = none ∧
      (r.error = some (m ++ " does not support image-to-video")
        ∨ r.error = some (m ++ " does not support text-to-video")) := by
  refine ⟨(pipeline env ji).1, (pipeline env ji).2, rfl, ?_⟩
  rcases hcase with ⟨hm, himg⟩ | ⟨hm, himg⟩ <;> subst hm
  · have hres : pipeline env ji =
        (errResult (.valueError ("t2v-A14B" ++ " does not support image-to-video")),
          { genCmd := none, liveFiles := [] }) := by
      simp [pipeline, check_wan_installation, download_model_if_needed, findConfig,
        cfgT2V, hmodel, himg, hwan, hscript, hdl]
    rw [hres]
    exact ⟨rfl, rfl, Or.inl rfl⟩
  · have hres : pipeline env ji =
        (errResult (.valueError ("i2v-A14B" ++ " does not support text-to-video")),
          { genCmd := none, liveFiles := [] }) := by
      simp [pipeline, check_wan_installation, download_model_if_needed, findConfig,
        cfgI2V, hmodel, himg, hwan, hscript, hdl]
    rw [hres]
    exact ⟨rfl, rfl, Or.inr rfl⟩

/-- Witness for C6: an image job on `t2v-A14B` is rejected before any
subprocess invocation. -/
theorem capability_validation_blocks_invocation_witness :
    ∃ r t,
      generate_video envOK { input := some { model := some "t2v-A14B", image_base64 := some "aGk=" } }
        = .ok (r, t) ∧
      r.status = "error" ∧ t.genCmd = none ∧
      (r.error = some ("t2v-A14B" ++ " does not support image-to-video")
        ∨ r.error = some ("t2v-A14B" ++ " does not support text-to-video")) :=
  capability_validation_blocks_invocation envOK
    { model := some "t2v-A14B", image_base64 := some "aGk=" } "t2v-A14B"
    rfl rfl (fun _ => rfl) rfl (Or.inl ⟨rfl, rfl⟩)

end Wan22

namespace Wan22

/-- Membership is preserved by sorted insertion. -/
theorem mem_insertDesc {a x : VideoFile} {l : List VideoFile} :
    a ∈ insertDesc x l ↔ a = x ∨ a ∈ l := by
  induction l with
  | nil => simp [insertDesc]
  | cons y ys ih =>
    by_cases h : y.mtime ≤ x.mtime
    · simp [insertDesc, h]
    · simp only [insertDesc, if_neg h, List.mem_cons, ih]
      tauto

/-- The head of a sorted insertion is the inserted element or the old
head, whichever has the larger modification time. -/
theorem head_insertDesc (x : VideoFile) (l : List VideoFile) :
    (insertDesc x l).head? = some (match l.head? with
      | none => x
      | some y => if y.mtime ≤ x.mtime then x else y) := by
  cases l with
  | nil => rfl
  | cons y ys => by_cases h : y.mtime ≤ x.mtime <;> simp [insertDesc, h]

/-- Sorting an empty result only comes from an empty input. -/
theorem sortByMtimeDesc_eq_nil {l : List VideoFile}
    (h : sortByMtimeDesc l = []) : l = [] := by
  cases l with
  | nil => rfl
  | cons x xs =>
    rw [sortByMtimeDesc] at h
    cases hs : sortByMtimeDesc xs with
    | nil => rw [hs] at h; simp [insertDesc] at h
    | cons y ys =>
      rw [hs] at h
      rw [insertDesc] at h
      split at h <;> simp at h

/-- The head of the mtime-descending sort is a member of the input with a
modification time at least that of every member. -/
theorem head_sortByMtimeDesc_max :
    ∀ (l : List VideoFile) (h : VideoFile), (sortByMtimeDesc l).head? = some h →
      h ∈ l ∧ ∀ g ∈ l, g.mtime ≤ h.mtime := by
  intro l
  induction l with
  | nil => intro h hh; simp [sortByMtimeDesc] at hh
  | cons x xs ih =>
    intro h hh
    rw [sortByMtimeDesc, head_insertDesc] at hh
    cases hsx : (sortByMtimeDesc xs).head? with
    | none =>
      rw [hsx] at hh
      have hxs : xs = [] := by
        apply sortByMtimeDesc_eq_nil
        cases hc : sortByMtimeDesc xs with
        | nil => rfl
        | cons z zs => rw [hc] at hsx; simp at hsx
      subst hxs
      simp only [Option.some.injEq] at hh
      subst hh
      simp
    | some y =>
      rw [hsx] at hh
      obtain ⟨hymem, hymax⟩ := ih y hsx
      simp only [Option.some.injEq] at hh
      by_cases hc : y.mtime ≤ x.mtime
      · rw [if_pos hc] at hh
        subst hh
        refine ⟨List.mem_cons_self _ _, ?_⟩
        intro g hg
        rcases List.mem_cons.mp hg with rfl | hg
        · exact le_refl _
        · exact le_trans (hymax g hg) hc
      · rw [if_neg hc] at hh
        subst hh
        refine ⟨List.mem_cons_of_mem _ hymem, ?_⟩
        intro g hg
        rcases List.mem_cons.mp hg with rfl | hg
        · exact le_of_not_le hc
        · exact hymax g hg

/-- C7: after a zero-exit generation run, `run_wan_generate` selects the
`.mp4` with the greatest modification time in the output directory, and
fails with a no-output-found error when the directory holds no `.mp4`. -/
theorem run_wan_generate_selects_latest_mp4 (env : Env) (m : String) (c : ModelConfig) (p : Params)
    (hcfg : findConfig m = some c)
    (hrc : (env.run (buildCmd m c p)).returncode = 0) :
    (env.outputFiles = [] →
      (run_wan_generate env m p).1 = .error (.exn "No output video found"))
    ∧ (env.outputFiles ≠ [] →
        ∃ f, f ∈ env.outputFiles ∧ (run_wan_generate env m p).1 = .ok f.name
          ∧ ∀ g ∈ env.outputFiles, g.mtime ≤ f.mtime) := by
  unfold run_wan_generate
  rw [hcfg]
  dsimp only
  rw [hrc]
  simp only [bne_self_eq_false, Bool.false_eq_true, if_false]
  constructor
  · intro hnil
    rw [hnil]
    rfl
  · intro hne
    cases hh : (sortByMtimeDesc env.outputFiles).head? with
    | none =>
      exfalso
      apply hne
      apply sortByMtimeDesc_eq_nil
      cases hc : sortByMtimeDesc env.outputFiles with
      | nil => rfl
      | cons z zs => rw [hc] at hh; simp at hh
    | some f =>
      obtain ⟨hmem, hmax⟩ := head_sortByMtimeDesc_max env.outputFiles f hh
      exact ⟨f, hmem, rfl, hmax⟩

/-- Like `envOK` but with an empty output directory. -/
def envNoOut : Env := { envOK with outputFiles := [] }

/-- Witness for C7: with `envNoOut` the zero-exit run fails with the
no-output error; with `envOK` it selects `b.mp4`, the newest file. -/
theorem run_wan_generate_selects_latest_mp4_witness :
    ((run_wan_generate envNoOut "t2v-A14B" { size := "1280*720" }).1
        = .error (.exn "No output video found"))
    ∧ (∃ f, f ∈ envOK.outputFiles
        ∧ (run_wan_generate envOK "t2v-A14B" { size := "1280*720" }).1 = .ok f.name
        ∧ ∀ g ∈ envOK.outputFiles, g.mtime ≤ f.mtime) :=
  ⟨(run_wan_generate_selects_latest_mp4 envNoOut "t2v-A14B" cfgT2V
      { size := "1280*720" } rfl rfl).1 rfl,
   (run_wan_generate_selects_latest_mp4 envOK "t2v-A14B" cfgT2V
      { size := "1280*720" } rfl rfl).2 (by decide)⟩

end Wan22

namespace Wan22

/-- Characterisation of the looked-up model configuration. -/
theorem findConfig_cases {m : String} {c : ModelConfig} (h : findConfig m = some c) :
    (m = "ti2v-5B" ∧ c = cfgTI2V) ∨ (m = "t2v-A14B" ∧ c = cfgT2V)
      ∨ (m = "i2v-A14B" ∧ c = cfgI2V) := by
  unfold findConfig at h
  split at h <;> [skip; split at h <;> [skip; split at h]] <;> simp_all

/-- Whenever the generation tail runs (either outcome), the recorded argv
is the one `buildCmd` produces for the looked-up configuration. -/
theorem finishJob_genCmd (env : Env) (m : String) (b : Bool) (p : Params) (t1 : Trace)
    (r : JobResult) (t : Trace) (c : ModelConfig)
    (hp : finishJob env m b p t1 = (r, t)) (hc : findConfig m = some c) :
    t.genCmd = some (buildCmd m c p) := by
  have hsnd := run_wan_generate_snd env m p
  rw [hc] at hsnd
  unfold finishJob at hp
  cases hr : run_wan_generate env m p with
  | mk res cmdO =>
    rw [hr] at hsnd
    dsimp at hsnd
    rw [hr] at hp
    cases res with
    | error e =>
      dsimp only at hp
      injection hp with h1 h2
      subst h2
      simpa using hsnd
    | ok out =>
      dsimp only at hp
      injection hp with h1 h2
      subst h2
      simpa using hsnd

/-- When the generation tail produces a success result, the `info`
sub-dictionary echoes the model, mode, size and prompt of the call. -/
theorem finishJob_success_info (env : Env) (m : String) (b : Bool) (p : Params) (t1 : Trace)
    (r : JobResult) (t : Trace)
    (hp : finishJob env m b p t1 = (r, t)) (hs : r.status = "success") :
    r.info = some { model := m, mode := if b then "t2v" else "i2v",
                    size := p.size, prompt := p.prompt, fps := 24 } := by
  unfold finishJob at hp
  cases hr : run_wan_generate env m p with
  | mk res cmdO =>
    rw [hr] at hp
    cases res with
    | error e =>
      dsimp only at hp
      injection hp with h1 h2
      subst h1
      simp [errResult] at hs
    | ok out =>
      dsimp only at hp
      injection hp with h1 h2
      subst h1
      rfl

end Wan22

namespace Wan22

/-- A successful `save_temp_image` returns the temp-file name the
environment hands out. -/
theorem save_temp_image_ok {env : Env} {s p : String}
    (h : save_temp_image env s = .ok p) : p = env.tempImageName := by
  unfold save_temp_image at h
  dsimp only at h
  repeat' split at h
  all_goals first
    | (injection h with h1; exact h1.symm)
    | exact absurd h (by simp)

/-- Full characterisation of a success result of the pipeline body: the
looked-up configuration exists, `info` echoes model / mode / size /
prompt, and the recorded argv is built from exactly those parameters, the
image path being the saved temp file exactly when an image was supplied. -/
theorem pipeline_success_spec (env : Env) (ji : JobInput) (r : JobResult) (t : Trace)
    (hp : pipeline env ji = (r, t)) (hs : r.status = "success") :
    ∃ c,
      findConfig (ji.model.getD "ti2v-5B") = some c
      ∧ r.info = some
          { model := ji.model.getD "ti2v-5B"
            mode := if truthyS ji.image_base64 then "i2v" else "t2v"
            size := ji.size.getD c.default_size
            prompt := if (ji.prompt.getD "") != "" then some (ji.prompt.getD "") else none
            fps := 24 }
      ∧ t.genCmd = some (buildCmd (ji.model.getD "ti2v-5B") c
          { size := ji.size.getD c.default_size
            prompt := if (ji.prompt.getD "") != "" then some (ji.prompt.getD "") else none
            seed := ji.seed
            image_path := if truthyS ji.image_base64 then some env.tempImageName else none }) := by
  unfold pipeline logAndRun at hp
  dsimp only at hp
  repeat' split at hp
  all_goals try (injection hp with h1 h2; subst h1; simp [errResult] at hs)
  all_goals refine ⟨_, by assumption, ?_, ?_⟩
  all_goals try (
    rw [finishJob_success_info _ _ _ _ _ _ _ hp hs]
    simp_all [save_temp_image])
  all_goals try (
    rw [finishJob_genCmd _ _ _ _ _ _ _ _ hp (by assumption)]
    simp_all [save_temp_image, ite_eq_iff])

end Wan22

namespace Wan22

/-- Whenever the pipeline records a subprocess invocation, the argv is
`buildCmd` applied to parameters taken from the job input (with the saved
temp file, if any, as image path). -/
theorem pipeline_genCmd_spec (env : Env) (ji : JobInput) (r : JobResult) (t : Trace)
    (hp : pipeline env ji = (r, t)) :
    t.genCmd = none
    ∨ ∃ c p,
        findConfig (ji.model.getD "ti2v-5B") = some c
        ∧ t.genCmd = some (buildCmd (ji.model.getD "ti2v-5B") c p)
        ∧ p.size = ji.size.getD c.default_size
        ∧ p.prompt = (if (ji.prompt.getD "") != "" then some (ji.prompt.getD "") else none)
        ∧ p.seed = ji.seed
        ∧ (p.image_path = none ∨ p.image_path = some env.tempImageName) := by
  unfold pipeline logAndRun at hp
  dsimp only at hp
  repeat' split at hp
  all_goals try (injection hp with h1 h2; subst h2; exact Or.inl rfl)
  all_goals refine Or.inr ⟨_, _, by assumption,
    by rw [finishJob_genCmd _ _ _ _ _ _ _ _ hp (by assumption)], rfl, ?_, rfl, ?_⟩
  all_goals simp_all [save_temp_image, ite_eq_iff]

/-- `buildCmd` written as one concatenation of the fixed head and the four
optional flag segments. -/
theorem buildCmd_append_form (m : String) (c : ModelConfig) (p : Params) :
    buildCmd m c p =
      ["python3", "/workspace/Wan2.2/generate.py",
       "--task", m, "--size", p.size, "--ckpt_dir", c.path,
       "--offload_model", "True", "--convert_model_dtype"]
      ++ (if m == "ti2v-5B" then ["--t5_cpu"] else [])
      ++ (if truthyS p.prompt then ["--prompt", p.prompt.getD ""] else [])
      ++ (if truthyS p.image_path then ["--image", p.image_path.getD ""] else [])
      ++ (if truthyI p.seed then ["--seed", toString (p.seed.getD 0)] else []) := by
  obtain ⟨size, prompt, seed, ipath⟩ := p
  cases prompt <;> cases ipath <;> cases seed <;>
    simp [buildCmd, truthyS, truthyI] <;>
    (repeat' split) <;> rfl

/-- C8: on a success result, `info.size` is exactly the size supplied in
the job input, or the resolved model's default size when absent; in
particular a supplied `"1280*704"` on `ti2v-5B` is echoed unchanged. -/
theorem size_echoed_in_result (env : Env) (ji : JobInput) (r : JobResult) (t : Trace)
    (h : generate_video env { input := some ji } = .ok (r, t))
    (hs : r.status = "success") :
    ∃ c i, findConfig (ji.model.getD "ti2v-5B") = some c
      ∧ r.info = some i ∧ i.size = ji.size.getD c.default_size := by
  have hp : pipeline env ji = (r, t) := by simpa [generate_video] using h
  obtain ⟨c, hc, hinfo, _⟩ := pipeline_success_spec env ji r t hp hs
  exact ⟨c, _, hc, hinfo, rfl⟩

/-- Witness for C8: supplying `"1280*704"` to `ti2v-5B` echoes that exact
string in `info.size`. -/
theorem size_echoed_in_result_witness :
    (∃ c i,
      findConfig ((some "ti2v-5B").getD "ti2v-5B") = some c
      ∧ ({ status := "success"
           video := some "data:video/mp4;base64,AAAA"
           info := some { model := "ti2v-5B", mode := "t2v", size := "1280*704",
                          prompt := some "hi", fps := 24 } } : JobResult).info = some i
      ∧ i.size = (some "1280*704").getD c.default_size) :=
  size_echoed_in_result envOK
    { model := some "ti2v-5B", prompt := some "hi", size := some "1280*704" } _ _ rfl rfl

end Wan22

namespace Wan22

/-- C9 counterexample: a job supplying its image only via `image_url` is
not treated as image-conditioned: the handler never reads `image_url`, the
job runs in text-to-video mode and no `--image` flag is passed. -/
theorem image_url_ignored :
    ∃ r t,
      generate_video envOK
          { input := some { prompt := some "hi"
                            image_url := some "https://example.com/cat.jpg" } } = .ok (r, t)
      ∧ r.status = "success"
      ∧ (∃ i, r.info = some i ∧ i.mode = "t2v")
      ∧ ∀ cmd, t.genCmd = some cmd → "--image" ∉ cmd := by
  refine ⟨resOK, trOK, rfl, rfl, ⟨_, rfl, rfl⟩, ?_⟩
  intro cmd hc
  simp only [trOK, Option.some.injEq] at hc
  subst hc
  decide

/-- C9 (amended): an input image is accepted only inline as base64 via
`image_base64`; the job is image-conditioned exactly when `image_base64`
is truthy (in which case the saved temp image is passed via `--image`),
and `image_url` has no effect. -/
theorem image_only_via_base64 (env : Env) (ji : JobInput) (r : JobResult) (t : Trace)
    (h : generate_video env { input := some ji } = .ok (r, t))
    (hs : r.status = "success")
    (htemp : env.tempImageName ≠ "") :
    ∃ i, r.info = some i
      ∧ i.mode = (if truthyS ji.image_base64 then "i2v" else "t2v")
      ∧ (truthyS ji.image_base64 = true →
          ∀ cmd, t.genCmd = some cmd → "--image" ∈ cmd) := by
  have hp : pipeline env ji = (r, t) := by simpa [generate_video] using h
  obtain ⟨c, hc, hinfo, hcmd⟩ := pipeline_success_spec env ji r t hp hs
  refine ⟨_, hinfo, rfl, ?_⟩
  intro himg cmd hcm
  rw [hcmd] at hcm
  injection hcm with hcm1
  subst hcm1
  rw [buildCmd_append_form]
  have hseg : truthyS (if truthyS ji.image_base64 then some env.tempImageName else none) = true := by
    rw [himg]
    simp [truthyS, htemp]
  simp [List.mem_append, hseg]

/-- The input of a prompted job supplying a small base64 image. -/
def jiImg : JobInput := { prompt := some "hi", image_base64 := some "aGk=" }

/-- The success result of the base64-image job under `envOK`. -/
def resImg : JobResult :=
  { status := "success"
    video := some "data:video/mp4;base64,AAAA"
    info := some { model := "ti2v-5B", mode := "i2v", size := "1280*704",
                   prompt := some "hi", fps := 24 } }

/-- The trace of the base64-image job under `envOK`. -/
def trImg : Trace :=
  { genCmd := some ["python3", "/workspace/Wan2.2/generate.py",
      "--task", "ti2v-5B", "--size", "1280*704",
      "--ckpt_dir", "/workspace/Wan2.2-TI2V-5B",
      "--offload_model", "True", "--convert_model_dtype", "--t5_cpu",
      "--prompt", "hi", "--image", "/tmp/tmp1234.jpg"]
    liveFiles := [] }

/-- Witness for the amended C9 at a concrete base64-image job. -/
theorem image_only_via_base64_witness :
    ∃ i, resImg.info = some i
      ∧ i.mode = (if truthyS jiImg.image_base64 then "i2v" else "t2v")
      ∧ (truthyS jiImg.image_base64 = true →
          ∀ cmd, trImg.genCmd = some cmd → "--image" ∈ cmd) :=
  image_only_via_base64 envOK jiImg resImg trImg rfl rfl (by decide)

/-- The argv of the failing prompted image job used to exhibit the
temp-file leak. -/
def cmdImgFail : List String :=
  ["python3", "/workspace/Wan2.2/generate.py",
   "--task", "ti2v-5B", "--size", "1280*704",
   "--ckpt_dir", "/workspace/Wan2.2-TI2V-5B",
   "--offload_model", "True", "--convert_model_dtype", "--t5_cpu",
   "--prompt", "hi", "--image", "/tmp/tmp1234.jpg"]

/-- C2 (code bug): on the failure paths the `except` block performs no
cleanup, so the saved temp image `/tmp/tmp1234.jpg` is still live (never
deleted) when `generate_video` returns an error result — both for a
prompted image job whose generation run exits non-zero, and for a
promptless image job that hits the line-223 `TypeError` right after the
image was saved. -/
theorem temp_image_leaks_on_failed_generation :
    (generate_video envFailRun
        { input := some { prompt := some "hi", image_base64 := some "aGk=" } }
      = .ok (errResult (.exn "Generation failed: CUDA out of memory"),
             { genCmd := some cmdImgFail, liveFiles := ["/tmp/tmp1234.jpg"] }))
    ∧ (generate_video envOK { input := some { image_base64 := some "aGk=" } }
      = .ok (errResult (.exn "'NoneType' object is not subscriptable"),
             { genCmd := none, liveFiles := ["/tmp/tmp1234.jpg"] })) :=
  ⟨rfl, rfl⟩

end Wan22

namespace Wan22

/-- C10 (code bug): a job whose prompt field is absent or the empty
string never reaches `run_wan_generate` and never succeeds: the prompt
log line at handler.py line 223 evaluates
`params.get("prompt", "None")[:50]`, the `prompt` key holds the stored
`None`, and the slice raises `TypeError`, so the job returns the
`'NoneType' object is not subscriptable` error result with no subprocess
command ever built — for the absent-prompt and the empty-prompt job
alike. -/
theorem promptless_job_errors_before_invocation :
    (generate_video envOK { input := some {} }
      = .ok (errResult (.exn "'NoneType' object is not subscriptable"),
             { genCmd := none, liveFiles := [] }))
    ∧ (generate_video envOK { input := some { prompt := some "" } }
      = .ok (errResult (.exn "'NoneType' object is not subscriptable"),
             { genCmd := none, liveFiles := [] })) :=
  ⟨rfl, rfl⟩

end Wan22
